import Mathlib

/-!
Verification development for the Travel-AI repository's resilient
AI-request pipeline: the retry dispatcher (`fetchWithRetry`), the
response resolver (regex JSON extraction + `JSON.parse` + fallback
builders) and the HTTP feature handlers built from them.

Conventions of the shallow embedding:
* JS strings are Lean `String` / `List Char`; machine numbers that occur
  (statuses, day counts, costs) are `Nat` / `ℚ` — no overflow is possible
  at the magnitudes involved.
* JSON numbers are modelled as rationals (all numeric literals in the
  sources are exactly representable).
* The OpenAI response envelope (`data.choices[0].message.content`) is
  modelled by a caller-supplied partial extraction function
  `envelope : String → Option String`; `none` models a body on which the
  envelope access throws.
* `new Date` arithmetic / `toISOString` is modelled by a caller-supplied
  function `dateFn : String → Nat → String` (start date and day offset to
  ISO day string); no claim depends on calendar arithmetic.
-/

/-- JSON values, as produced by `JSON.parse` (numbers as rationals;
`\u` escapes and exponent notation, which never occur in this
repository's payloads, are not modelled). -/
inductive Json : Type where
  | null : Json
  | bool : Bool → Json
  | num : ℚ → Json
  | str : String → Json
  | arr : List Json → Json
  | obj : List (String × Json) → Json

/-- Look up a top-level key of a JSON object (objects built in this
development never repeat keys). -/
def Json.getKey : Json → String → Option Json
  | .obj fs, k => (fs.find? (fun p => p.1 == k)).map (fun p => p.2)
  | _, _ => none

/-- Follow a path of object keys. -/
def Json.getPath : Json → List String → Option Json
  | v, [] => some v
  | v, k :: ks =>
    match v.getKey k with
    | some w => w.getPath ks
    | none => none

/-- Does a JSON object carry the given top-level key? -/
def Json.hasKey (v : Json) (k : String) : Bool :=
  (v.getKey k).isSome

/-- Length of a JSON array. -/
def Json.arrLength : Json → Option Nat
  | .arr xs => some xs.length
  | _ => none

/-- JSON whitespace. -/
def isJsonWs : Char → Bool
  | ' ' => true
  | '\n' => true
  | '\t' => true
  | '\r' => true
  | _ => false

/-- Skip leading JSON whitespace. -/
def skipWs (cs : List Char) : List Char :=
  cs.dropWhile isJsonWs

/-- Numeric value of a decimal digit. -/
def digitVal (c : Char) : Option Nat :=
  if '0' ≤ c ∧ c ≤ '9' then some (c.toNat - '0'.toNat) else none

/-- Consume a maximal run of decimal digits, returning the accumulated
value, the number of digits consumed, and the rest. -/
def takeDigits (acc k : Nat) : List Char → Nat × Nat × List Char
  | [] => (acc, k, [])
  | c :: cs =>
    match digitVal c with
    | some d => takeDigits (acc * 10 + d) (k + 1) cs
    | none => (acc, k, c :: cs)

/-- Parse a JSON number (optional minus, digits, optional fraction). -/
def parseNumber (cs : List Char) : Option (ℚ × List Char) :=
  let (neg, cs1) :=
    match cs with
    | '-' :: t => (true, t)
    | _ => (false, cs)
  let (ip, k, cs2) := takeDigits 0 0 cs1
  if k = 0 then none
  else
    let (mag, rest) :=
      match cs2 with
      | '.' :: t =>
        let (fp, fk, cs3) := takeDigits 0 0 t
        if fk = 0 then ((0 : ℚ), '.' :: t)
        else (((ip * 10 ^ fk + fp : ℚ) / 10 ^ fk), cs3)
      | _ => ((ip : ℚ), cs2)
    match cs2 with
    | '.' :: t =>
      let (_, fk, _) := takeDigits 0 0 t
      if fk = 0 then none
      else some (if neg then -mag else mag, rest)
    | _ => some (if neg then -mag else mag, rest)

/-- Map a JSON escape character to the character it denotes (the `\u`
escape, unused by this repository's payloads, is not modelled). -/
def escChar : Char → Option Char
  | 'n' => some '\n'
  | 't' => some '\t'
  | 'r' => some '\r'
  | 'b' => some (Char.ofNat 8)
  | 'f' => some (Char.ofNat 12)
  | '"' => some '"'
  | '\\' => some '\\'
  | '/' => some '/'
  | _ => none

/-- Consume the body of a JSON string after the opening quote, up to and
including the closing quote. -/
def takeStringBody : List Char → Option (List Char × List Char)
  | [] => none
  | '"' :: t => some ([], t)
  | '\\' :: e :: t =>
    match escChar e, takeStringBody t with
    | some c, some (s, r) => some (c :: s, r)
    | _, _ => none
  | c :: t =>
    match takeStringBody t with
    | some (s, r) => some (c :: s, r)
    | none => none

mutual

/-- Parse one JSON value (fuelled recursive descent; the fuel is an
upper bound on nesting depth, safe at `length + 1`). -/
def parseVal : Nat → List Char → Option (Json × List Char)
  | 0, _ => none
  | fuel + 1, cs =>
    match skipWs cs with
    | 'n' :: 'u' :: 'l' :: 'l' :: t => some (.null, t)
    | 't' :: 'r' :: 'u' :: 'e' :: t => some (.bool true, t)
    | 'f' :: 'a' :: 'l' :: 's' :: 'e' :: t => some (.bool false, t)
    | '"' :: t =>
      match takeStringBody t with
      | some (s, r) => some (.str (String.mk s), r)
      | none => none
    | '[' :: t =>
      (match skipWs t with
       | ']' :: r => some (.arr [], r)
       | _ =>
         match parseItems fuel t with
         | some (xs, r) => some (.arr xs, r)
         | none => none)
    | '\x7b' :: t =>
      (match skipWs t with
       | '\x7d' :: r => some (.obj [], r)
       | _ =>
         match parseFields fuel t with
         | some (fs, r) => some (.obj fs, r)
         | none => none)
    | cs' =>
      match parseNumber cs' with
      | some (q, r) => some (.num q, r)
      | none => none

/-- Parse a non-empty comma-separated list of array items up to `]`. -/
def parseItems : Nat → List Char → Option (List Json × List Char)
  | 0, _ => none
  | fuel + 1, cs =>
    match parseVal fuel cs with
    | some (v, r) =>
      (match skipWs r with
       | ',' :: r2 =>
         match parseItems fuel r2 with
         | some (xs, r3) => some (v :: xs, r3)
         | none => none
       | ']' :: r2 => some ([v], r2)
       | _ => none)
    | none => none

/-- Parse a non-empty comma-separated list of object fields up to the
closing brace. -/
def parseFields : Nat → List Char → Option (List (String × Json) × List Char)
  | 0, _ => none
  | fuel + 1, cs =>
    match skipWs cs with
    | '"' :: t =>
      (match takeStringBody t with
       | some (k, r) =>
         (match skipWs r with
          | ':' :: r2 =>
            (match parseVal fuel r2 with
             | some (v, r3) =>
               (match skipWs r3 with
                | ',' :: r4 =>
                  match parseFields fuel r4 with
                  | some (fs, r5) => some ((String.mk k, v) :: fs, r5)
                  | none => none
                | '\x7d' :: r4 => some ([(String.mk k, v)], r4)
                | _ => none)
             | none => none)
          | _ => none)
       | none => none)
    | _ => none

end

/-- Model of `JSON.parse` on a character list: one JSON value followed by
nothing but whitespace, else failure (JS throws, modelled as `none`). -/
def Json.parseChars (cs : List Char) : Option Json :=
  match parseVal (cs.length + 1) cs with
  | some (v, rest) => if (skipWs rest).isEmpty then some v else none
  | none => none

/-- Model of the handlers' extraction regex (greedy, as in
`content.match` with the brace-to-brace pattern): the substring running
from the first opening brace to the last closing brace of the whole
text, provided that closing brace lies after the opening one; `none`
models a null match. -/
def jsonExtract (cs : List Char) : Option (List Char) :=
  match cs.dropWhile (fun c => c != '\x7b') with
  | [] => none
  | _ :: rest =>
    let body := (rest.reverse.dropWhile (fun c => c != '\x7d')).reverse
    if body.isEmpty then none else some ('\x7b' :: body)

/-- Caller-visible result of an AI-backed feature: a value decoded from
the provider reply, or the synthesized fallback. -/
inductive StructuredResult (α : Type) : Type where
  | parsed : α → StructuredResult α
  | fallback : α → StructuredResult α

/-- The handlers' shared parse block: extract the greedy brace match
from the delivered text and `JSON.parse` it; a null match (the inner
throw) or a parse error lands in the `catch (parseError)` branch, which
substitutes the fallback value. -/
def resolveContent (content : List Char) (fb : Json) : StructuredResult Json :=
  match jsonExtract content with
  | some m =>
    match Json.parseChars m with
    | some v => .parsed v
    | none => .fallback fb
  | none => .fallback fb

/-- Outcome of a single `fetch` call: a resolved `Response` (status and
body) or a rejected promise (network-level error message). The
transport is a function from the attempt index to its outcome. -/
inductive FetchOutcome : Type where
  | success : Nat → String → FetchOutcome
  | failure : String → FetchOutcome

/-- What `fetchWithRetry` hands its caller: the `Response` it returns
(status and body), or the error it throws after exhausting retries. -/
inductive DispatchResult : Type where
  | delivered : Nat → String → DispatchResult
  | exhausted : String → DispatchResult

/-- Discriminator for the throwing outcome. -/
def DispatchResult.isExhausted : DispatchResult → Bool
  | .exhausted _ => true
  | .delivered _ _ => false

/-- The body of `fetchWithRetry`'s `for` loop, from attempt index
`attempt` with `fuel = maxRetries + 1 - attempt` iterations left and
`lastError` as the last caught network error. Returns the result
together with the number of `fetch` calls made and the list of backoff
delays (in milliseconds) actually awaited. Falling off the loop without
a response throws `lastError` (or the synthetic error when no error was
ever recorded). -/
def retryGo (transport : Nat → FetchOutcome) (maxRetries : Nat) :
    Nat → Nat → Option String → DispatchResult × Nat × List Nat
  | _, 0, lastError =>
    (.exhausted (lastError.getD "Max retries exceeded"), 0, [])
  | attempt, fuel + 1, lastError =>
    match transport attempt with
    | .success status body =>
      if (status = 429 ∨ 500 ≤ status) ∧ attempt < maxRetries then
        let r := retryGo transport maxRetries (attempt + 1) fuel lastError
        (r.1, r.2.1 + 1, 2 ^ attempt * 1000 :: r.2.2)
      else
        (.delivered status body, 1, [])
    | .failure e =>
      if attempt < maxRetries then
        let r := retryGo transport maxRetries (attempt + 1) fuel (some e)
        (r.1, r.2.1 + 1, 2 ^ attempt * 1000 :: r.2.2)
      else
        (.exhausted e, 1, [])

/-- Model of `fetchWithRetry(url, options, maxRetries)`: attempts are
numbered `0..maxRetries`; a 429 or 5xx status or a thrown network error
is retried after a `2 ^ attempt * 1000` ms delay while attempts remain;
any other response is returned at once. Result: dispatch outcome,
number of `fetch` calls, delays awaited. -/
def fetchWithRetry (transport : Nat → FetchOutcome) (maxRetries : Nat) :
    DispatchResult × Nat × List Nat :=
  retryGo transport maxRetries 0 (maxRetries + 1) none

/-- The `response.ok` predicate of the Fetch API. -/
def isOk (status : Nat) : Bool :=
  decide (200 ≤ status ∧ status < 300)

/-- JS `a || b` on an optional string: `undefined` and the empty string
are falsy. -/
def jsOrElse (a b : Option String) : Option String :=
  match a with
  | some s => if s.isEmpty then b else some s
  | none => b

/-- Destination chosen for day `i` (0-based) by the generate-itinerary
fallback builder: `destinations[Math.floor(i / Math.ceil(duration /
destinations.length))] || destinations[0]`. -/
def destinationForDay (destinations : List String) (duration i : Nat) :
    Option String :=
  let chunk := (duration + destinations.length - 1) / destinations.length
  jsOrElse (destinations.get? (i / chunk)) (destinations.get? 0)

/-- One day entry pushed by the generate-itinerary fallback builder
(the `destination` field of the JS object is `undefined`, rendered here
as `null`, only when the selected element does not exist; JS string
interpolation of `undefined` yields the text "undefined"). -/
def fallbackDay (destinations : List String) (startDate : String)
    (duration : Nat) (dateFn : String → Nat → String) (i : Nat) : Json :=
  let dOpt := destinationForDay destinations duration i
  let dstr := dOpt.getD "undefined"
  Json.obj [
    ("day", .num ((i : ℚ) + 1)),
    ("date", .str (dateFn startDate i)),
    ("destination", match dOpt with | some d => .str d | none => .null),
    ("activities", .arr [
      .obj [
        ("time", .str "09:00"),
        ("endTime", .str "12:00"),
        ("title", .str ("Explore " ++ dstr)),
        ("description", .str ("Start your day exploring the highlights of " ++ dstr)),
        ("location", .str dstr),
        ("type", .str "sightseeing"),
        ("priceEstimate", .num 30),
        ("tips", .str "Start early to avoid crowds")],
      .obj [
        ("time", .str "12:00"),
        ("endTime", .str "14:00"),
        ("title", .str "Local Lunch"),
        ("description", .str ("Try traditional cuisine in " ++ dstr)),
        ("location", .str ("Local restaurant in " ++ dstr)),
        ("type", .str "dining"),
        ("priceEstimate", .num 25),
        ("tips", .str "Ask locals for recommendations")],
      .obj [
        ("time", .str "14:00"),
        ("endTime", .str "17:00"),
        ("title", .str "Cultural Experience"),
        ("description", .str ("Visit museums or cultural sites in " ++ dstr)),
        ("location", .str dstr),
        ("type", .str "culture"),
        ("priceEstimate", .num 20),
        ("tips", .str "Check for student or group discounts")],
      .obj [
        ("time", .str "19:00"),
        ("endTime", .str "21:00"),
        ("title", .str "Dinner"),
        ("description", .str ("Evening dining experience in " ++ dstr)),
        ("location", .str ("Restaurant district in " ++ dstr)),
        ("type", .str "dining"),
        ("priceEstimate", .num 40),
        ("tips", .str "Make reservations in advance")]])]

/-- The generate-itinerary endpoint's `createFallbackItinerary(content,
destinations, startDate, duration)` (the `content` parameter is unused
in the source as well). -/
def createFallbackItinerary (content : String) (destinations : List String)
    (startDate : String) (duration : Nat)
    (dateFn : String → Nat → String) : Json :=
  Json.obj [
    ("days", .arr ((List.range duration).map
      (fallbackDay destinations startDate duration dateFn))),
    ("totalEstimatedCost", .num ((duration : ℚ) * 115)),
    ("travelTips", .arr [
      .str "Pack light and bring comfortable walking shoes",
      .str "Keep copies of important documents",
      .str "Learn basic phrases in the local language",
      .str "Research local customs and etiquette"]),
    ("packingRecommendations", .arr [
      .str "Comfortable walking shoes",
      .str "Weather-appropriate clothing",
      .str "Portable charger",
      .str "Travel adapter",
      .str "First aid kit"])]

/-- Required top-level keys of the generate-itinerary response shape,
as declared in that handler's system prompt. -/
def itineraryShapeValid (v : Json) : Bool :=
  v.hasKey "days" && v.hasKey "totalEstimatedCost" &&
    v.hasKey "travelTips" && v.hasKey "packingRecommendations"

/-- Budget tier of the comprehensive-itinerary request (the source's
string union "budget" | "mid-range" | "luxury"). -/
inductive Budget : Type where
  | budget : Budget
  | midRange : Budget
  | luxury : Budget
deriving DecidableEq

/-- The wire spelling of a budget tier. -/
def Budget.toKey : Budget → String
  | .budget => "budget"
  | .midRange => "mid-range"
  | .luxury => "luxury"

/-- Travel style of the comprehensive-itinerary request (the source's
string union "relaxed" | "balanced" | "packed"). -/
inductive TravelStyle : Type where
  | relaxed : TravelStyle
  | balanced : TravelStyle
  | packed : TravelStyle
deriving DecidableEq

/-- The `DetailedItineraryRequest` body of the comprehensive-itinerary
endpoint. -/
structure DetailedItineraryRequest : Type where
  destination : String
  duration : Nat
  startDate : String
  budget : Budget
  travelStyle : TravelStyle
  interests : List String
  groupSize : Nat
  accessibility : Option (List String)

/-- One `dailyItinerary` entry of the comprehensive-itinerary fallback
builder. -/
def compFallbackDay (req : DetailedItineraryRequest)
    (dateFn : String → Nat → String) (i : Nat) : Json :=
  Json.obj [
    ("day", .num ((i : ℚ) + 1)),
    ("date", .str (dateFn req.startDate i)),
    ("theme", .str (if i = 0 then "Arrival & Orientation"
      else "Day " ++ toString (i + 1) ++ " Exploration")),
    ("morning", .obj [
      ("time", .str "09:00"),
      ("activity", .str ("Explore " ++ req.destination ++ " highlights")),
      ("location", .str "City Center"),
      ("cost", .str "$15"),
      ("tips", .arr [.str "Start early for better photos"])]),
    ("lunch", .obj [
      ("restaurant", .str "Midday Café"),
      ("cuisine", .str "Local"),
      ("cost", .str "$18"),
      ("specialties", .arr [.str "Daily special", .str "Local favorite"])]),
    ("afternoon", .obj [
      ("time", .str "14:00"),
      ("activity", .str "Cultural experience"),
      ("location", .str "Heritage District"),
      ("cost", .str "$20"),
      ("tips", .arr [.str "Ask about student discounts"])]),
    ("dinner", .obj [
      ("restaurant", .str "Evening Bistro"),
      ("cuisine", .str "Contemporary"),
      ("cost", .str "$35"),
      ("specialties", .arr [.str "Chef's special", .str "Local wine"])]),
    ("evening", .obj [
      ("activity", .str "Evening walk"),
      ("location", .str "Waterfront"),
      ("cost", .str "Free"),
      ("tips", .arr [.str "Beautiful sunset views"])])]

/-- The comprehensive-itinerary endpoint's
`createFallbackItinerary(request)`. -/
def createFallbackItineraryComp (req : DetailedItineraryRequest)
    (dateFn : String → Nat → String) : Json :=
  Json.obj [
    ("destination", .str req.destination),
    ("overview", .str (req.destination ++
      " offers rich cultural experiences and attractions.")),
    ("bestTimeToVisit", .str "Year-round"),
    ("safetyRating", .num 8),
    ("safetyTips", .arr [
      .str "Stay aware of surroundings",
      .str "Use official transportation"]),
    ("culturalTips", .arr [
      .str "Learn basic local phrases",
      .str "Respect local customs"]),
    ("hotels", .arr [.obj [
      ("name", .str "Central Plaza Hotel"),
      ("category", .str req.budget.toKey),
      ("priceRange", .str (if req.budget = .budget then "$60-90"
        else if req.budget = .midRange then "$120-180" else "$250-400")),
      ("location", .str "City Center"),
      ("amenities", .arr [.str "WiFi", .str "Breakfast", .str "Concierge"]),
      ("rating", .num 4.2),
      ("bookingTips", .str "Book 2 weeks in advance"),
      ("address", .str ("Main Square, " ++ req.destination))]]),
    ("restaurants", .arr [.obj [
      ("name", .str "Local Heritage Restaurant"),
      ("cuisine", .str "Traditional"),
      ("mealType", .str "dinner"),
      ("priceRange", .str "$25-40"),
      ("specialties", .arr [.str "Regional specialty", .str "Traditional dessert"]),
      ("location", .str "Historic Quarter"),
      ("reservationRequired", .bool true),
      ("rating", .num 4.6),
      ("dietaryOptions", .arr [.str "Vegetarian options"])]]),
    ("attractions", .arr [.obj [
      ("name", .str (req.destination ++ " Cultural Center")),
      ("type", .str "Cultural Site"),
      ("description", .str "Main cultural attraction showcasing local heritage"),
      ("duration", .str "2-3 hours"),
      ("bestTime", .str "Morning"),
      ("ticketPrice", .str "$15-20"),
      ("location", .str "Cultural District"),
      ("crowdLevel", .str "moderate"),
      ("accessibility", .arr [.str "Wheelchair accessible"]),
      ("tips", .arr [.str "Free guided tours at 10am and 2pm"])]]),
    ("transportation", .obj [
      ("airport", .arr [.obj [
        ("mode", .str "Airport Shuttle"),
        ("description", .str "Direct service to city center"),
        ("cost", .str "$15-25"),
        ("duration", .str "45 minutes"),
        ("bookingInfo", .str "Available at arrivals"),
        ("tips", .arr [.str "Runs every 30 minutes"]),
        ("accessibility", .arr [.str "Wheelchair accessible"])]]),
      ("local", .arr [.obj [
        ("mode", .str "City Bus"),
        ("description", .str "Comprehensive bus network"),
        ("cost", .str "$2 per ride"),
        ("duration", .str "Varies"),
        ("bookingInfo", .str "Pay on board or use app"),
        ("tips", .arr [.str "Get a day pass for $8"]),
        ("accessibility", .arr [.str "Most buses accessible"])]]),
      ("intercity", .arr [.obj [
        ("mode", .str "Regional Train"),
        ("description", .str "Connect to nearby destinations"),
        ("cost", .str "$20-45"),
        ("duration", .str "1-4 hours"),
        ("bookingInfo", .str "Book at station or online"),
        ("tips", .arr [.str "Discounts for advance booking"]),
        ("accessibility", .arr [.str "Accessible cars available"])]])]),
    ("dailyItinerary", .arr ((List.range req.duration).map
      (compFallbackDay req dateFn))),
    ("costBreakdown", .obj [
      ("accommodation", .obj [
        ("min", .num (60 * (req.duration : ℚ))),
        ("max", .num (400 * (req.duration : ℚ)))]),
      ("food", .obj [
        ("min", .num (50 * (req.duration : ℚ))),
        ("max", .num (120 * (req.duration : ℚ)))]),
      ("activities", .obj [
        ("min", .num (30 * (req.duration : ℚ))),
        ("max", .num (80 * (req.duration : ℚ)))]),
      ("transport", .obj [
        ("min", .num (25 * (req.duration : ℚ))),
        ("max", .num (70 * (req.duration : ℚ)))]),
      ("total", .obj [
        ("min", .num (165 * (req.duration : ℚ))),
        ("max", .num (670 * (req.duration : ℚ)))])]),
    ("packingList", .arr [
      .str "Comfortable walking shoes",
      .str "Weather-appropriate clothing",
      .str "Portable charger",
      .str "Travel documents",
      .str "Camera",
      .str "Sunscreen"]),
    ("emergencyInfo", .obj [
      ("emergencyNumber", .str "Emergency services"),
      ("hospitals", .arr [.str (req.destination ++ " General Hospital")]),
      ("embassies", .arr [.str "Contact your local embassy"]),
      ("importantPhones", .arr [.str "Tourist information: Local number"])])]

/-- Completeness of one fallback day entry: the five sub-entries the
scenario requires. -/
def dayEntryComplete (v : Json) : Bool :=
  v.hasKey "morning" && v.hasKey "lunch" && v.hasKey "afternoon" &&
    v.hasKey "dinner" && v.hasKey "evening"

/-- Every element of a JSON array of day entries is complete. -/
def allDayEntriesComplete : Json → Bool
  | .arr xs => xs.all dayEntryComplete
  | _ => false

/-- The canned unavailability reply of the first travel-chat handler. -/
def chatUnavailableMsg : String :=
  "I'm currently unable to access my AI capabilities due to service limitations. However, I can still help you with general travel advice! Feel free to ask about popular destinations, travel tips, or planning strategies."

/-- The canned unavailability reply of the expert travel-chat handler. -/
def expertChatUnavailableMsg : String :=
  "I'm your travel expert assistant, but I'm currently unable to access my full AI capabilities due to service limitations. I can still provide general travel guidance! What destination or travel question can I help you with?"

/-- The location-recommendations endpoint's
`createFallbackRecommendations(destination)`. -/
def createFallbackRecommendations (destination : String) : Json :=
  Json.obj [
    ("restaurants", .arr [.obj [
      ("name", .str "Local Favorite Restaurant"),
      ("cuisine", .str "Local"),
      ("priceRange", .str "$$"),
      ("description", .str ("Popular local restaurant in " ++ destination)),
      ("location", .str "City Center"),
      ("mustTry", .arr [.str "Local specialty dish", .str "Traditional dessert"])]]),
    ("sightseeing", .arr [.obj [
      ("name", .str (destination ++ " Main Attraction")),
      ("type", .str "Historical Site"),
      ("description", .str ("Must-visit landmark in " ++ destination)),
      ("duration", .str "2-3 hours"),
      ("bestTime", .str "Morning"),
      ("ticketPrice", .str "Varies")]]),
    ("transportation", .obj [
      ("local", .obj [
        ("modes", .arr [.str "Walking", .str "Public Transport", .str "Taxi"]),
        ("tips", .arr [.str "Use local transport apps",
          .str "Keep small change handy"])])]),
    ("nightlife", .arr [.obj [
      ("name", .str "Local Bar District"),
      ("type", .str "Entertainment Area"),
      ("description", .str ("Popular nightlife area in " ++ destination)),
      ("priceRange", .str "$$")]]),
    ("shopping", .arr [.obj [
      ("name", .str "Local Market"),
      ("type", .str "Traditional Market"),
      ("description", .str ("Traditional shopping area in " ++ destination)),
      ("specialties", .arr [.str "Local crafts", .str "Souvenirs"])]]),
    ("tips", .arr [
      .str "Learn basic local phrases",
      .str "Carry local currency",
      .str "Respect local customs"])]

/-- A row of the destination catalog, also the shape of the static
fallback list (the `coordinates` object is flattened to `lat`/`lng`). -/
structure CatalogEntry : Type where
  name : String
  country : String
  continent : String
  description : String
  popularFor : List String
  bestTime : String
  lat : ℚ
  lng : ℚ
  popularityScore : Nat
deriving DecidableEq

/-- The destination-suggestions endpoint's embedded static fallback
list. -/
def fallbackDestinations : List CatalogEntry := [
  { name := "Paris", country := "France", continent := "Europe",
    description := "City of Light and Love",
    popularFor := ["Art", "Culture", "Romance", "Food"],
    bestTime := "Apr-Jun, Sep-Oct",
    lat := 48.8566, lng := 2.3522, popularityScore := 100 },
  { name := "Tokyo", country := "Japan", continent := "Asia",
    description := "Modern Metropolis",
    popularFor := ["Technology", "Food", "Culture", "Shopping"],
    bestTime := "Mar-May, Sep-Nov",
    lat := 35.6762, lng := 139.6503, popularityScore := 95 },
  { name := "New York", country := "United States", continent := "North America",
    description := "The Big Apple",
    popularFor := ["Culture", "Broadway", "Food", "Museums"],
    bestTime := "Apr-Jun, Sep-Nov",
    lat := 40.7128, lng := -74.0060, popularityScore := 90 },
  { name := "London", country := "United Kingdom", continent := "Europe",
    description := "Historic Capital",
    popularFor := ["History", "Museums", "Theater", "Culture"],
    bestTime := "May-Sep",
    lat := 51.5074, lng := -0.1278, popularityScore := 85 },
  { name := "Rome", country := "Italy", continent := "Europe",
    description := "Eternal City",
    popularFor := ["History", "Architecture", "Food", "Art"],
    bestTime := "Apr-Jun, Sep-Oct",
    lat := 41.9028, lng := 12.4964, popularityScore := 80 }]

/-- Character-list test for a leading occurrence of the first list. -/
def startsWithChars : List Char → List Char → Bool
  | [], _ => true
  | _ :: _, [] => false
  | a :: as, b :: bs => a == b && startsWithChars as bs

/-- Character-list substring test (JS `String.prototype.includes`). -/
def hasSubChars : List Char → List Char → Bool
  | needle, [] => needle.isEmpty
  | needle, hay@(_ :: t) => startsWithChars needle hay || hasSubChars needle t

/-- JS `hay.includes(needle)`. -/
def strIncludes (hay needle : String) : Bool :=
  hasSubChars needle.data hay.data

/-- Length of a string after JS `trim()` (leading and trailing
whitespace stripped), computed structurally on the character list. -/
def jsTrimLen (s : String) : Nat :=
  ((s.data.dropWhile isJsonWs).reverse.dropWhile isJsonWs).length

/-- The destination-suggestions endpoint's
`getFallbackSuggestions(query)`. -/
def getFallbackSuggestions (query : String) : List CatalogEntry :=
  if jsTrimLen query = 0 then fallbackDestinations
  else
    fallbackDestinations.filter (fun dest =>
      strIncludes dest.name.toLower query.toLower ||
      strIncludes dest.country.toLower query.toLower ||
      dest.popularFor.any (fun tag => strIncludes tag.toLower query.toLower))

/-- Insert an entry into a popularity-descending list, keeping it
descending. -/
def insertByScoreDesc (e : CatalogEntry) :
    List CatalogEntry → List CatalogEntry
  | [] => [e]
  | a :: t =>
    if a.popularityScore < e.popularityScore then e :: a :: t
    else a :: insertByScoreDesc e t

/-- Sort a catalog by descending popularity score. -/
def sortByScoreDesc : List CatalogEntry → List CatalogEntry
  | [] => []
  | a :: t => insertByScoreDesc a (sortByScoreDesc t)

/-- Modelled from the external database contract: the PostgREST query
`.order(popularity_score, descending).limit(limit)` over the persisted
catalog. -/
def catalogQuery (catalog : List CatalogEntry) (lim : Nat) :
    List CatalogEntry :=
  (sortByScoreDesc catalog).take lim

/-- Modelled from the external database contract: the fuzzy-search
variant of the query (case-insensitive substring on name, country and
description), ordered descending and limited. -/
def catalogSearch (catalog : List CatalogEntry) (query : String)
    (lim : Nat) : List CatalogEntry :=
  (sortByScoreDesc (catalog.filter (fun d =>
    strIncludes d.name.toLower query.toLower ||
    strIncludes d.country.toLower query.toLower ||
    strIncludes d.description.toLower query.toLower))).take lim

/-- Descending-popularity sortedness of a suggestion list. -/
def sortedByScoreDesc : List CatalogEntry → Bool
  | [] => true
  | [_] => true
  | a :: b :: t =>
    decide (b.popularityScore ≤ a.popularityScore) &&
      sortedByScoreDesc (b :: t)

/-- Boolean membership of a catalog entry in a list. -/
def entryMem (e : CatalogEntry) (l : List CatalogEntry) : Bool :=
  l.any (fun x => decide (x = e))

/-- Every entry of the first list occurs in the second. -/
def entriesAllIn (r catalog : List CatalogEntry) : Bool :=
  r.all (fun e => entryMem e catalog)

/-- What the platform observes from one handler invocation: either the
`Response` the handler constructed (status and JSON body), or an
exception escaping the handler body, which the std/http `serve` wrapper
surfaces as a 500 Internal Server Error. -/
inductive ServeResult : Type where
  | response : Nat → Json → ServeResult
  | handlerError : String → ServeResult

/-- HTTP status the caller receives for a handler invocation. -/
def ServeResult.statusOf : ServeResult → Nat
  | .response s _ => s
  | .handlerError _ => 500

/-- One POST to a travel-chat handler (both chat variants share this
control flow; `canned` is the variant's unavailability reply).
`hasKey = false` models an absent `OPENAI_API_KEY`: the handler throws
before any `fetch`, and its catch returns the canned reply with status
200. `envelope` models `data.choices[0].message.content`; `none` means
that access threw, landing in the same catch. Returns the serve result
together with the number of `fetch` calls made. -/
def travelChatRun (canned : String) (hasKey : Bool)
    (transport : Nat → FetchOutcome) (envelope : String → Option String) :
    ServeResult × Nat :=
  if hasKey = false then
    (.response 200 (Json.obj [("response", .str canned)]), 0)
  else
    match fetchWithRetry transport 3 with
    | (.exhausted _, n, _) =>
      (.response 200 (Json.obj [("response", .str canned)]), n)
    | (.delivered status body, n, _) =>
      if isOk status then
        match envelope body with
        | some content =>
          (.response 200 (Json.obj [("response", .str content)]), n)
        | none =>
          (.response 200 (Json.obj [("response", .str canned)]), n)
      else
        (.response 200 (Json.obj [("response", .str canned)]), n)

/-- One POST to the generate-itinerary endpoint. Its catch branch
evaluates `createFallbackItinerary('', destinations, startDate,
duration)`, but those bindings are `const`s scoped to the `try` block
and are not visible in the catch: reaching the catch (missing key,
dispatch exhaustion, or an envelope access that threw) raises a
`ReferenceError` out of the handler, which the serve wrapper turns into
a 500. A delivered non-ok response and a parse failure are handled
inside the `try`, where the bindings are in scope, and answer 200. -/
def generateItineraryRun (destinations : List String) (startDate : String)
    (duration : Nat) (hasKey : Bool) (transport : Nat → FetchOutcome)
    (envelope : String → Option String)
    (dateFn : String → Nat → String) : ServeResult :=
  if hasKey = false then
    .handlerError "ReferenceError: destinations is not defined"
  else
    match (fetchWithRetry transport 3).1 with
    | .exhausted _ =>
      .handlerError "ReferenceError: destinations is not defined"
    | .delivered status body =>
      if isOk status then
        match envelope body with
        | some content =>
          match resolveContent content.data
              (createFallbackItinerary content destinations startDate
                duration dateFn) with
          | .parsed v => .response 200 v
          | .fallback v => .response 200 v
        | none =>
          .handlerError "ReferenceError: destinations is not defined"
      else
        .response 200 (createFallbackItinerary "" destinations startDate
          duration dateFn)

/-- One POST to the location-recommendations endpoint. Like the
generate-itinerary endpoint, its catch branch reads the try-scoped
`destination` binding, so every path into the catch escapes with a
`ReferenceError` and surfaces as 500. -/
def locationRecsRun (destination : String) (hasKey : Bool)
    (transport : Nat → FetchOutcome)
    (envelope : String → Option String) : ServeResult :=
  if hasKey = false then
    .handlerError "ReferenceError: destination is not defined"
  else
    match (fetchWithRetry transport 3).1 with
    | .exhausted _ =>
      .handlerError "ReferenceError: destination is not defined"
    | .delivered status body =>
      if isOk status then
        match envelope body with
        | some content =>
          match resolveContent content.data
              (createFallbackRecommendations destination) with
          | .parsed v => .response 200 v
          | .fallback v => .response 200 v
        | none =>
          .handlerError "ReferenceError: destination is not defined"
      else
        .response 200 (createFallbackRecommendations destination)

/-- One POST to the comprehensive-itinerary endpoint. A delivered
non-ok response and everything reaching the catch (missing key,
dispatch exhaustion, an envelope access that threw) answer an explicit
`{ error }` payload with status 500; only an ok delivery reaches the
parse-or-fallback path, which answers 200. The thrown message's
`statusText`/body details are elided. -/
def comprehensiveRun (req : DetailedItineraryRequest) (hasKey : Bool)
    (transport : Nat → FetchOutcome) (envelope : String → Option String)
    (dateFn : String → Nat → String) : ServeResult :=
  if hasKey = false then
    .response 500 (Json.obj [("error", .str "OpenAI API key not configured")])
  else
    match (fetchWithRetry transport 3).1 with
    | .exhausted e => .response 500 (Json.obj [("error", .str e)])
    | .delivered status body =>
      if isOk status then
        match envelope body with
        | some content =>
          match resolveContent content.data
              (createFallbackItineraryComp req dateFn) with
          | .parsed v => .response 200 v
          | .fallback v => .response 200 v
        | none =>
          .response 500 (Json.obj [("error",
            .str "TypeError: cannot read properties of undefined")])
      else
        .response 500 (Json.obj [("error",
          .str ("OpenAI API error: " ++ toString status))])

/-- One POST to the destination-suggestions endpoint. `db` is the
persisted catalog when the database answers, `none` when the query
errors (the in-`try` error branch). Every path answers status 200; the
result is the status together with the suggestions list (the source's
field-renaming projection of catalog rows is the identity here). -/
def destinationSuggestionsRun (query : String) (lim : Nat)
    (db : Option (List CatalogEntry)) : Nat × List CatalogEntry :=
  if 0 < jsTrimLen query then
    match db with
    | some catalog => (200, catalogSearch catalog query lim)
    | none => (200, getFallbackSuggestions query)
  else
    match db with
    | some catalog => (200, catalogQuery catalog lim)
    | none => (200, getFallbackSuggestions "")

/-- Concrete comprehensive-itinerary request of the Paris scenario. -/
def parisReq : DetailedItineraryRequest :=
  { destination := "Paris", duration := 3, startDate := "2024-03-15",
    budget := .luxury, travelStyle := .balanced,
    interests := ["Art", "Food"], groupSize := 2, accessibility := none }

/-- A concrete stand-in for the date library used when evaluating the
builders on concrete inputs (claims under test do not constrain date
strings). -/
def dummyDateFn : String → Nat → String :=
  fun s _ => s

/-- The minimal shape-conforming reply object used by concrete
resolver runs. -/
def sampleItineraryObj : Json :=
  Json.obj [("days", .arr []), ("totalEstimatedCost", .num 0),
    ("travelTips", .arr []), ("packingRecommendations", .arr [])]

/-- Character text of `sampleItineraryObj` as a provider would write
it. -/
def sampleItineraryChars : List Char :=
  "\x7b\"days\":[],\"totalEstimatedCost\":0,\"travelTips\":[],\"packingRecommendations\":[]\x7d".data

theorem retryGo_all_retryable_success (bodies : Nat → String) (s M : Nat)
    (hs : s = 429 ∨ 500 ≤ s) :
    ∀ (fuel attempt : Nat) (le : Option String), attempt + fuel = M →
      retryGo (fun n => .success s (bodies n)) M attempt (fuel + 1) le
        = (.delivered s (bodies M), fuel + 1,
            (List.range' attempt fuel).map (fun a => 2 ^ a * 1000)) := by
  intro fuel
  induction fuel with
  | zero =>
    intro attempt le h
    have ha : attempt = M := by omega
    subst ha
    simp only [retryGo]
    rw [if_neg]
    · simp [List.range']
    · rintro ⟨-, h2⟩
      omega
  | succ fuel ih =>
    intro attempt le h
    have hrec := ih (attempt + 1) le (by omega)
    simp only [retryGo] at hrec ⊢
    rw [if_pos ⟨hs, by omega⟩, hrec]
    simp [List.range']

theorem retryGo_all_failure (errs : Nat → String) (M : Nat) :
    ∀ (fuel attempt : Nat) (le : Option String), attempt + fuel = M →
      retryGo (fun n => .failure (errs n)) M attempt (fuel + 1) le
        = (.exhausted (errs M), fuel + 1,
            (List.range' attempt fuel).map (fun a => 2 ^ a * 1000)) := by
  intro fuel
  induction fuel with
  | zero =>
    intro attempt le h
    have ha : attempt = M := by omega
    subst ha
    simp only [retryGo]
    rw [if_neg (by omega)]
    simp [List.range']
  | succ fuel ih =>
    intro attempt le h
    have hrec := ih (attempt + 1) (some (errs attempt)) (by omega)
    simp only [retryGo] at hrec ⊢
    rw [if_pos (by omega : attempt < M), hrec]
    simp [List.range']

/-- C3 counterexample: with a transport answering HTTP 500 on every
attempt and `maxRetries = 3`, `fetchWithRetry` makes 4 attempts but
returns the final 500 `Response` — the outcome is Delivered, not
Exhausted, so exhaustion by repeated bad statuses never yields a
synthetic Exhausted error. -/
theorem dispatch_all500_not_exhausted_cex :
    fetchWithRetry (fun _ => .success 500 "Internal Server Error") 3
      = (.delivered 500 "Internal Server Error", 4, [1000, 2000, 4000])
    ∧ (fetchWithRetry (fun _ => .success 500 "Internal Server Error") 3).1.isExhausted
      = false :=
  ⟨rfl, rfl⟩

/-- C3 (amended): when every attempt yields HTTP 500, `fetchWithRetry`
performs exactly `maxRetries + 1` attempts and returns the final 500
response as a Delivered outcome (the synthetic "Max retries exceeded"
error is unreachable); only when every attempt raises a network error
does it exhaust, throwing the most recent network error after
`maxRetries + 1` attempts. -/
theorem dispatch_exhaustion_amended (bodies errs : Nat → String)
    (maxRetries : Nat) :
    fetchWithRetry (fun n => .success 500 (bodies n)) maxRetries
      = (.delivered 500 (bodies maxRetries), maxRetries + 1,
          (List.range maxRetries).map (fun a => 2 ^ a * 1000))
    ∧ fetchWithRetry (fun n => .failure (errs n)) maxRetries
      = (.exhausted (errs maxRetries), maxRetries + 1,
          (List.range maxRetries).map (fun a => 2 ^ a * 1000)) := by
  constructor
  · rw [fetchWithRetry,
      retryGo_all_retryable_success bodies 500 maxRetries (Or.inr (by omega))
        maxRetries 0 none (by omega),
      List.range_eq_range']
  · rw [fetchWithRetry,
      retryGo_all_failure errs maxRetries maxRetries 0 none (by omega),
      List.range_eq_range']

/-- C4 counterexample: across three retries the delays actually awaited
are 1000, 2000 and 4000 ms, so the delay before retry attempt `n = 1`
is 1000 ms and not `2 ^ 1 * 1000 = 2000` ms as the claimed formula
requires. -/
theorem backoff_formula_cex :
    (fetchWithRetry (fun _ => .success 500 "overloaded") 3).2.2
      = [1000, 2000, 4000]
    ∧ (fetchWithRetry (fun _ => .success 500 "overloaded") 3).2.2.head?
      = some 1000
    ∧ 2 ^ 1 * 1000 = 2000
    ∧ (1000 : Nat) ≠ 2000 :=
  ⟨rfl, rfl, rfl, by decide⟩

/-- C4 (amended): the backoff delay before retry attempt `n`
(n = 1, 2, 3, ...) equals `2 ^ (n - 1) * 1000` ms — the exponent is the
index of the attempt that just failed — producing 1000, 2000, 4000 ms
across three retries, and no delay follows the final attempt (the
number of delays is one less than the number of attempts). -/
theorem backoff_delays_amended (bodies : Nat → String) (maxRetries : Nat) :
    (fetchWithRetry (fun n => .success 500 (bodies n)) maxRetries).2.2
      = (List.range maxRetries).map (fun a => 2 ^ a * 1000)
    ∧ (fetchWithRetry (fun n => .success 500 (bodies n)) maxRetries).2.2.length + 1
      = (fetchWithRetry (fun n => .success 500 (bodies n)) maxRetries).2.1
    ∧ (fetchWithRetry (fun _ => .success 500 "overloaded again") 3).2.2
      = [1000, 2000, 4000] := by
  have h := (dispatch_exhaustion_amended bodies bodies maxRetries).1
  refine ⟨?_, ?_, rfl⟩
  · rw [h]
  · rw [h]
    simp

/-- C6 (confirmed): any response with a non-retryable status — 2xx, or
a 4xx other than 429 (and any other status below 500) — is returned
immediately as Delivered, with no further attempt and no delay,
wherever in the attempt sequence it occurs; in particular a 200-with-
body first attempt yields exactly one attempt and that body, regardless
of content. -/
theorem dispatch_nonretryable_immediate (transport : Nat → FetchOutcome)
    (M s : Nat) (body : String) (h429 : s ≠ 429) (h5 : s < 500) :
    (∀ attempt fuel le, transport attempt = .success s body →
        retryGo transport M attempt (fuel + 1) le = (.delivered s body, 1, []))
    ∧ (transport 0 = .success s body →
        fetchWithRetry transport M = (.delivered s body, 1, [])) := by
  have hgen : ∀ attempt fuel le, transport attempt = .success s body →
      retryGo transport M attempt (fuel + 1) le = (.delivered s body, 1, []) := by
    intro attempt fuel le htr
    simp only [retryGo, htr]
    rw [if_neg]
    rintro ⟨h1, -⟩
    rcases h1 with h | h
    · exact h429 h
    · omega
  exact ⟨hgen, fun h0 => hgen 0 M none h0⟩

/-- Witness for C6: a first-attempt 200 with body "hello" is delivered
after exactly one attempt with no delays. -/
theorem dispatch_nonretryable_immediate_witness :
    fetchWithRetry (fun _ => .success 200 "hello") 3
      = (.delivered 200 "hello", 1, []) :=
  (dispatch_nonretryable_immediate (fun _ => .success 200 "hello") 3 200
    "hello" (by decide) (by decide)).2 rfl

theorem dropWhile_append_all (p : Char → Bool) :
    ∀ (xs ys : List Char), (∀ x ∈ xs, p x = true) →
      (xs ++ ys).dropWhile p = ys.dropWhile p := by
  intro xs
  induction xs with
  | nil => intro ys _; rfl
  | cons a t ih =>
    intro ys h
    have ha : p a = true := h a (by simp)
    simp only [List.cons_append, List.dropWhile_cons, ha, if_true]
    exact ih ys (fun x hx => h x (by simp [hx]))

theorem jsonExtract_clean (pre mid post : List Char)
    (hpre : '\x7b' ∉ pre) (hpost : '\x7d' ∉ post) :
    jsonExtract (pre ++ ('\x7b' :: mid ++ ['\x7d']) ++ post)
      = some ('\x7b' :: mid ++ ['\x7d']) := by
  have hpre' : ∀ x ∈ pre, (x != '\x7b') = true := by
    intro x hx
    simp only [bne_iff_ne, ne_eq]
    intro he
    exact hpre (he ▸ hx)
  have hpost' : ∀ x ∈ post.reverse, (x != '\x7d') = true := by
    intro x hx
    simp only [bne_iff_ne, ne_eq]
    intro he
    exact hpost (he ▸ (List.mem_reverse.mp hx))
  have h1 : (pre ++ ('\x7b' :: mid ++ ['\x7d']) ++ post).dropWhile
      (fun c => c != '\x7b') = '\x7b' :: ((mid ++ ['\x7d']) ++ post) := by
    rw [List.append_assoc, dropWhile_append_all _ pre _ hpre']
    simp [List.dropWhile_cons]
  unfold jsonExtract
  rw [h1]
  have h2 : (((mid ++ ['\x7d']) ++ post).reverse.dropWhile
      (fun c => c != '\x7d')).reverse = mid ++ ['\x7d'] := by
    rw [List.reverse_append, dropWhile_append_all _ post.reverse _ hpost']
    simp [List.dropWhile_cons]
  simp only [h2]
  have h3 : (mid ++ ['\x7d']).isEmpty = false := by
    cases mid <;> rfl
  rw [h3]
  simp

/-- C5 (amended): the resolver's extraction is the greedy regex match
running from the first opening brace to the last closing brace of the
raw text; consequently, for every raw text in which the only braces are
those of a single embedded well-formed JSON object matching the
expected shape, `resolve` returns Parsed with exactly that decoded
object. -/
theorem resolve_clean_embedding_parsed (pre mid post : List Char)
    (v fb : Json) (hpre : '\x7b' ∉ pre) (hpost : '\x7d' ∉ post)
    (hv : Json.parseChars ('\x7b' :: mid ++ ['\x7d']) = some v)
    (hshape : itineraryShapeValid v = true) :
    resolveContent (pre ++ ('\x7b' :: mid ++ ['\x7d']) ++ post) fb
      = .parsed v := by
  unfold resolveContent
  rw [jsonExtract_clean pre mid post hpre hpost]
  simp only [hv]

/-- Witness for C5 (amended): a shape-conforming object wrapped in
prose without further braces is decoded and returned as Parsed. -/
theorem resolve_clean_embedding_parsed_witness :
    resolveContent ("Sure: ".data
        ++ ('\x7b' :: "\"days\":[],\"totalEstimatedCost\":0,\"travelTips\":[],\"packingRecommendations\":[]".data ++ ['\x7d'])
        ++ " Enjoy!".data) (Json.str "FB")
      = .parsed sampleItineraryObj :=
  resolve_clean_embedding_parsed "Sure: ".data
    "\"days\":[],\"totalEstimatedCost\":0,\"travelTips\":[],\"packingRecommendations\":[]".data
    " Enjoy!".data sampleItineraryObj (Json.str "FB")
    (by decide) (by decide) rfl rfl

/-- C5 counterexample: a raw text containing a single well-formed,
shape-conforming JSON object embedded in prose, where the prose after
the object contains one stray closing brace: the greedy match spans
past the object, `JSON.parse` fails, and `resolve` answers Fallback
instead of Parsed — so extraction is not "the first balanced top-level
brace-delimited substring". -/
theorem resolve_greedy_extract_cex :
    Json.parseChars sampleItineraryChars = some sampleItineraryObj
    ∧ itineraryShapeValid sampleItineraryObj = true
    ∧ resolveContent ("ok ".data ++ sampleItineraryChars ++ " end\x7d".data)
        (Json.str "FB") = .fallback (Json.str "FB") :=
  ⟨rfl, rfl, rfl⟩

/-- C2 counterexample: the provider text "Here is your itinerary: \x7b\x7d"
decodes to the empty object, which the resolver returns as Parsed even
though it carries none of the required keys — decoded objects are not
validated for required keys, so Parsed results can be structurally
incomplete. -/
theorem resolver_unvalidated_parsed_cex :
    resolveContent "Here is your itinerary: \x7b\x7d".data (Json.str "FB")
      = .parsed (Json.obj [])
    ∧ itineraryShapeValid (Json.obj []) = false :=
  ⟨rfl, rfl⟩

/-- C2 (amended): when the greedy brace extraction finds nothing, or
the extracted substring fails to decode, the resolver returns the
Fallback value, and the generate-itinerary fallback builder's value
always carries every required top-level key of the expected shape; but
a substring that decodes successfully is returned as Parsed with no
required-key validation, so only Fallback results are guaranteed
structurally complete. -/
theorem resolver_fallback_amended (content : List Char) (fb : Json) :
    (Json.parseChars ((jsonExtract content).getD []) = none →
        resolveContent content fb = .fallback fb)
    ∧ (∀ m v, jsonExtract content = some m → Json.parseChars m = some v →
        resolveContent content fb = .parsed v)
    ∧ (∀ (c : String) (dests : List String) (sd : String) (n : Nat)
        (df : String → Nat → String),
        itineraryShapeValid (createFallbackItinerary c dests sd n df) = true) := by
  refine ⟨?_, ?_, ?_⟩
  · intro h
    unfold resolveContent
    cases hx : jsonExtract content with
    | none => rfl
    | some m =>
      rw [hx] at h
      simp only [Option.getD_some] at h
      simp only [h]
  · intro m v hm hv
    unfold resolveContent
    simp only [hm, hv]
  · intro c dests sd n df
    rfl

/-- Witness for C2 (amended): a brace-free provider text resolves to
the Fallback value, and a concrete fallback itinerary passes the shape
validator. -/
theorem resolver_fallback_amended_witness :
    resolveContent "no structured payload here".data (Json.str "FB")
      = .fallback (Json.str "FB")
    ∧ itineraryShapeValid
        (createFallbackItinerary "" ["Lisbon"] "2024-05-01" 2 dummyDateFn)
      = true :=
  ⟨(resolver_fallback_amended "no structured payload here".data
      (Json.str "FB")).1 rfl,
   (resolver_fallback_amended "no structured payload here".data
      (Json.str "FB")).2.2 "" ["Lisbon"] "2024-05-01" 2 dummyDateFn⟩

/-- C7 (confirmed): for destination "Paris", duration 3, budget luxury,
the comprehensive-itinerary fallback has exactly 3 daily entries, each
with morning, lunch, afternoon, dinner and evening sub-entries, and its
cost breakdown's `total.min`/`total.max` are the per-day bounds 165 and
670 multiplied by 3. -/
theorem comp_fallback_paris_scenario :
    ((createFallbackItineraryComp parisReq dummyDateFn).getKey
        "dailyItinerary").bind Json.arrLength = some 3
    ∧ allDayEntriesComplete
        (((createFallbackItineraryComp parisReq dummyDateFn).getKey
          "dailyItinerary").getD .null) = true
    ∧ (createFallbackItineraryComp parisReq dummyDateFn).getPath
        ["costBreakdown", "total", "min"] = some (.num 495)
    ∧ (createFallbackItineraryComp parisReq dummyDateFn).getPath
        ["costBreakdown", "total", "max"] = some (.num 2010)
    ∧ (495 : ℚ) = 165 * 3 ∧ (2010 : ℚ) = 670 * 3 := by
  have hmin : (createFallbackItineraryComp parisReq dummyDateFn).getPath
      ["costBreakdown", "total", "min"]
      = some (.num (165 * (parisReq.duration : ℚ))) := rfl
  have hmax : (createFallbackItineraryComp parisReq dummyDateFn).getPath
      ["costBreakdown", "total", "max"]
      = some (.num (670 * (parisReq.duration : ℚ))) := rfl
  refine ⟨rfl, rfl, ?_, ?_, by norm_num, by norm_num⟩
  · rw [hmin]
    norm_num [parisReq]
  · rw [hmax]
    norm_num [parisReq]

/-- C9 (confirmed): a chat request with the provider API key absent
makes zero `fetch` calls and answers the canned unavailability message
with HTTP status 200, for every transport behaviour — the handler's
throw is swallowed by its own catch, so no exception reaches the
caller. -/
theorem chat_missing_key_canned (transport : Nat → FetchOutcome)
    (envelope : String → Option String) :
    travelChatRun chatUnavailableMsg false transport envelope
      = (.response 200 (Json.obj [("response", .str chatUnavailableMsg)]), 0) :=
  rfl

/-- C10 (confirmed): for a non-empty destination list and any day index
below the duration, the computed index
`Math.floor(i / Math.ceil(duration / destinations.length))` stays below
the list length, and the generated day entry's destination is an
element of the input list (never undefined) — the `|| destinations[0]`
guard covers only the falsy empty-string case. -/
theorem fallback_day_destination_safe (dests : List String)
    (duration i : Nat) (sd : String) (df : String → Nat → String)
    (hne : dests ≠ []) (hi : i < duration) :
    i / ((duration + dests.length - 1) / dests.length) < dests.length
    ∧ ∃ d, destinationForDay dests duration i = some d ∧ d ∈ dests
      ∧ (fallbackDay dests sd duration df i).getKey "destination"
        = some (.str d) := by
  have hk : 0 < dests.length := List.length_pos.mpr hne
  have hmod := Nat.div_add_mod (duration + dests.length - 1) dests.length
  have hmlt := Nat.mod_lt (duration + dests.length - 1) hk
  have hc : 0 < (duration + dests.length - 1) / dests.length := by
    rw [Nat.lt_iff_add_one_le, Nat.zero_add, Nat.one_le_div_iff hk]
    omega
  have hidx : i / ((duration + dests.length - 1) / dests.length)
      < dests.length := by
    rw [Nat.div_lt_iff_lt_mul hc]
    set t := dests.length * ((duration + dests.length - 1) / dests.length)
      with ht
    omega
  refine ⟨hidx, ?_⟩
  have hget : dests.get? (i / ((duration + dests.length - 1) / dests.length))
      = some (dests.get ⟨_, hidx⟩) := List.get?_eq_get hidx
  have hproj : ∀ d, destinationForDay dests duration i = some d →
      (fallbackDay dests sd duration df i).getKey "destination"
        = some (.str d) := by
    intro d hd
    have : (fallbackDay dests sd duration df i).getKey "destination"
        = some (match destinationForDay dests duration i with
                | some d => Json.str d
                | none => Json.null) := rfl
    rw [this, hd]
  simp only [destinationForDay, jsOrElse, hget]
  by_cases he : (dests.get ⟨_, hidx⟩).isEmpty
  · rw [if_pos he]
    have h0 : dests.get? 0 = some (dests.get ⟨0, hk⟩) := List.get?_eq_get hk
    rw [h0]
    refine ⟨dests.get ⟨0, hk⟩, rfl, List.get_mem dests 0 hk, ?_⟩
    apply hproj
    simp only [destinationForDay, jsOrElse, hget]
    rw [if_pos he, h0]
  · rw [if_neg he]
    refine ⟨dests.get ⟨_, hidx⟩, rfl, List.get_mem dests _ hidx, ?_⟩
    apply hproj
    simp only [destinationForDay, jsOrElse, hget]
    rw [if_neg he]

/-- Witness for C10: with two destinations over three days, day index 2
selects the second destination, in bounds and a member of the list. -/
theorem fallback_day_destination_safe_witness :
    2 / ((3 + (["Rome", "Milan"] : List String).length - 1)
        / (["Rome", "Milan"] : List String).length)
      < (["Rome", "Milan"] : List String).length
    ∧ ∃ d, destinationForDay ["Rome", "Milan"] 3 2 = some d
      ∧ d ∈ (["Rome", "Milan"] : List String)
      ∧ (fallbackDay ["Rome", "Milan"] "2024-06-01" 3 dummyDateFn 2).getKey
          "destination" = some (.str d) :=
  fallback_day_destination_safe ["Rome", "Milan"] 3 2 "2024-06-01"
    dummyDateFn (by decide) (by decide)

/-- C1 counterexample: the comprehensive-itinerary endpoint, with the
API key configured but the provider unreachable (every attempt a
network failure, so dispatch exhausts), answers HTTP status 500 — a
5xx for provider unavailability. -/
theorem comp_itinerary_500_cex :
    (comprehensiveRun parisReq true (fun _ => .failure "fetch failed")
        (fun b => some b) dummyDateFn).statusOf = 500
    ∧ (500 : Nat) ≠ 200 :=
  ⟨rfl, by decide⟩

/-- C1 (amended): the chat and destination-suggestions endpoints answer
status 200 on every path; the generate-itinerary and
location-recommendations endpoints answer 200 whenever a response is
delivered (ok with a readable envelope, parsed or not, and any non-ok
status), but a missing key, dispatch exhaustion or an unreadable
envelope reaches their catch branch, which crashes on a try-scoped
binding and surfaces as 500; and the comprehensive-itinerary endpoint
answers 200 only for an ok delivery with a readable envelope and an
explicit 500 `{ error }` payload otherwise — the "always 200" convention
does not hold repository-wide. -/
theorem feature_endpoint_status_amended (canned dest : String)
    (hasKey : Bool) (t : Nat → FetchOutcome) (env : String → Option String)
    (dests : List String) (sd : String) (dur : Nat)
    (req : DetailedItineraryRequest) (q : String) (lim : Nat)
    (db : Option (List CatalogEntry)) (df : String → Nat → String) :
    (travelChatRun canned hasKey t env).1.statusOf = 200
    ∧ (destinationSuggestionsRun q lim db).1 = 200
    ∧ (generateItineraryRun dests sd dur hasKey t env df).statusOf
      = (match hasKey, (fetchWithRetry t 3).1 with
         | false, _ => 500
         | true, .exhausted _ => 500
         | true, .delivered s b =>
           if isOk s then (if (env b).isSome then 200 else 500) else 200)
    ∧ (locationRecsRun dest hasKey t env).statusOf
      = (match hasKey, (fetchWithRetry t 3).1 with
         | false, _ => 500
         | true, .exhausted _ => 500
         | true, .delivered s b =>
           if isOk s then (if (env b).isSome then 200 else 500) else 200)
    ∧ (comprehensiveRun req hasKey t env df).statusOf
      = (match hasKey, (fetchWithRetry t 3).1 with
         | false, _ => 500
         | true, .exhausted _ => 500
         | true, .delivered s b =>
           if isOk s then (if (env b).isSome then 200 else 500) else 500) := by
  rcases hfr : fetchWithRetry t 3 with ⟨r, n, ds⟩
  refine ⟨?_, ?_, ?_, ?_, ?_⟩
  · cases hasKey with
    | false => rfl
    | true =>
      simp only [travelChatRun, hfr]
      cases r with
      | exhausted e => rfl
      | delivered s b =>
        by_cases hok : isOk s = true
        · cases henv : env b <;> simp [hok, henv, ServeResult.statusOf]
        · simp [hok, ServeResult.statusOf]
  · unfold destinationSuggestionsRun
    split <;> cases db <;> rfl
  · cases hasKey with
    | false => rfl
    | true =>
      simp only [generateItineraryRun, hfr]
      cases r with
      | exhausted e => rfl
      | delivered s b =>
        by_cases hok : isOk s = true
        · cases henv : env b with
          | none => simp [hok, henv, ServeResult.statusOf]
          | some content =>
            cases hres : resolveContent content.data
                (createFallbackItinerary content dests sd dur df) <;>
              simp [hok, henv, hres, ServeResult.statusOf]
        · simp [hok, ServeResult.statusOf]
  · cases hasKey with
    | false => rfl
    | true =>
      simp only [locationRecsRun, hfr]
      cases r with
      | exhausted e => rfl
      | delivered s b =>
        by_cases hok : isOk s = true
        · cases henv : env b with
          | none => simp [hok, henv, ServeResult.statusOf]
          | some content =>
            cases hres : resolveContent content.data
                (createFallbackRecommendations dest) <;>
              simp [hok, henv, hres, ServeResult.statusOf]
        · simp [hok, ServeResult.statusOf]
  · cases hasKey with
    | false => rfl
    | true =>
      simp only [comprehensiveRun, hfr]
      cases r with
      | exhausted e => rfl
      | delivered s b =>
        by_cases hok : isOk s = true
        · cases henv : env b with
          | none => simp [hok, henv, ServeResult.statusOf]
          | some content =>
            cases hres : resolveContent content.data
                (createFallbackItineraryComp req df) <;>
              simp [hok, henv, hres, ServeResult.statusOf]
        · simp [hok, ServeResult.statusOf]

theorem sortedByScoreDesc_cons_cons (a b : CatalogEntry)
    (t : List CatalogEntry) :
    sortedByScoreDesc (a :: b :: t)
      = (decide (b.popularityScore ≤ a.popularityScore)
          && sortedByScoreDesc (b :: t)) := rfl

theorem sorted_insertByScoreDesc (e : CatalogEntry) :
    ∀ l, sortedByScoreDesc l = true →
      sortedByScoreDesc (insertByScoreDesc e l) = true := by
  intro l
  induction l with
  | nil => intro _; rfl
  | cons a t ih =>
    intro h
    cases t with
    | nil =>
      simp only [insertByScoreDesc]
      by_cases hlt : a.popularityScore < e.popularityScore
      · rw [if_pos hlt, sortedByScoreDesc_cons_cons, Bool.and_eq_true,
          decide_eq_true_iff]
        exact ⟨by omega, rfl⟩
      · rw [if_neg hlt]
        rw [sortedByScoreDesc_cons_cons, Bool.and_eq_true, decide_eq_true_iff]
        exact ⟨by omega, rfl⟩
    | cons b t' =>
      rw [sortedByScoreDesc_cons_cons, Bool.and_eq_true,
        decide_eq_true_iff] at h
      obtain ⟨hab, hbt⟩ := h
      simp only [insertByScoreDesc]
      by_cases hlt : a.popularityScore < e.popularityScore
      · rw [if_pos hlt, sortedByScoreDesc_cons_cons,
          sortedByScoreDesc_cons_cons, Bool.and_eq_true, Bool.and_eq_true,
          decide_eq_true_iff, decide_eq_true_iff]
        exact ⟨by omega, hab, hbt⟩
      · rw [if_neg hlt]
        have hins := ih hbt
        simp only [insertByScoreDesc] at hins ⊢
        by_cases hbe : b.popularityScore < e.popularityScore
        · rw [if_pos hbe] at hins ⊢
          rw [sortedByScoreDesc_cons_cons, Bool.and_eq_true,
            decide_eq_true_iff]
          exact ⟨by omega, hins⟩
        · rw [if_neg hbe] at hins ⊢
          rw [sortedByScoreDesc_cons_cons, Bool.and_eq_true,
            decide_eq_true_iff]
          exact ⟨hab, hins⟩

theorem sorted_sortByScoreDesc : ∀ l,
    sortedByScoreDesc (sortByScoreDesc l) = true
  | [] => rfl
  | a :: t =>
    sorted_insertByScoreDesc a (sortByScoreDesc t)
      (sorted_sortByScoreDesc t)

theorem mem_insertByScoreDesc {x e : CatalogEntry} :
    ∀ l, x ∈ insertByScoreDesc e l → x = e ∨ x ∈ l := by
  intro l
  induction l with
  | nil =>
    intro h
    simp [insertByScoreDesc] at h
    exact Or.inl h
  | cons a t ih =>
    intro h
    simp only [insertByScoreDesc] at h
    by_cases hlt : a.popularityScore < e.popularityScore
    · rw [if_pos hlt] at h
      rcases List.mem_cons.mp h with h1 | h2
      · exact Or.inl h1
      · exact Or.inr h2
    · rw [if_neg hlt] at h
      rcases List.mem_cons.mp h with h1 | h2
      · exact Or.inr (List.mem_cons.mpr (Or.inl h1))
      · rcases ih h2 with h3 | h4
        · exact Or.inl h3
        · exact Or.inr (List.mem_cons.mpr (Or.inr h4))

theorem mem_sortByScoreDesc {x : CatalogEntry} :
    ∀ l, x ∈ sortByScoreDesc l → x ∈ l := by
  intro l
  induction l with
  | nil => intro h; exact h
  | cons a t ih =>
    intro h
    rcases mem_insertByScoreDesc (sortByScoreDesc t) h with h1 | h2
    · simp [h1]
    · exact List.mem_cons.mpr (Or.inr (ih h2))

theorem sorted_take : ∀ (l : List CatalogEntry) (n : Nat),
    sortedByScoreDesc l = true → sortedByScoreDesc (l.take n) = true := by
  intro l
  induction l with
  | nil =>
    intro n _
    rw [List.take_nil]
    rfl
  | cons a t ih =>
    intro n h
    cases n with
    | zero => rfl
    | succ m =>
      cases t with
      | nil => cases m <;> rfl
      | cons b t' =>
        cases m with
        | zero => rfl
        | succ m' =>
          rw [sortedByScoreDesc_cons_cons, Bool.and_eq_true,
            decide_eq_true_iff] at h
          obtain ⟨hab, hbt⟩ := h
          have ht := ih (m' + 1) hbt
          simp only [List.take_succ_cons] at ht ⊢
          rw [sortedByScoreDesc_cons_cons, Bool.and_eq_true,
            decide_eq_true_iff]
          exact ⟨hab, ht⟩

theorem entriesAllIn_catalogQuery (catalog : List CatalogEntry) (lim : Nat) :
    entriesAllIn (catalogQuery catalog lim) catalog = true := by
  unfold entriesAllIn catalogQuery
  rw [List.all_eq_true]
  intro e he
  have h1 : e ∈ sortByScoreDesc catalog := List.mem_of_mem_take he
  have h2 : e ∈ catalog := mem_sortByScoreDesc catalog h1
  unfold entryMem
  rw [List.any_eq_true]
  exact ⟨e, h2, by simp⟩

/-- C8 counterexample: with an empty query, a requested limit of 3 and
a failing database, the fallback path returns all five static entries —
the limit does not bound the fallback result. -/
theorem dest_suggestions_fallback_limit_cex :
    (destinationSuggestionsRun "" 3 none).2.length = 5
    ∧ ¬ (5 ≤ 3)
    ∧ (destinationSuggestionsRun "" 3 none).2 = fallbackDestinations :=
  ⟨rfl, by decide, rfl⟩

/-- C8 (amended): with an empty query, the catalog path returns the
catalog's entries ordered by descending popularity score and truncated
to the requested limit (so the bound N ≤ limit holds there); the
fallback path instead returns the full five-entry static list — itself
in descending popularity order and within the default limit of 10 —
regardless of any smaller requested limit. -/
theorem dest_suggestions_empty_query_amended (catalog : List CatalogEntry)
    (lim : Nat) :
    (destinationSuggestionsRun "" lim (some catalog)).2
      = (sortByScoreDesc catalog).take lim
    ∧ (destinationSuggestionsRun "" lim (some catalog)).2.length ≤ lim
    ∧ sortedByScoreDesc (destinationSuggestionsRun "" lim (some catalog)).2
      = true
    ∧ entriesAllIn (destinationSuggestionsRun "" lim (some catalog)).2 catalog
      = true
    ∧ (destinationSuggestionsRun "" lim none).2 = fallbackDestinations
    ∧ sortedByScoreDesc fallbackDestinations = true
    ∧ fallbackDestinations.length ≤ 10 := by
  have h1 : (destinationSuggestionsRun "" lim (some catalog)).2
      = (sortByScoreDesc catalog).take lim := rfl
  refine ⟨h1, ?_, ?_, ?_, rfl, rfl, by decide⟩
  · rw [h1]
    exact List.length_take_le lim (sortByScoreDesc catalog)
  · rw [h1]
    exact sorted_take (sortByScoreDesc catalog) lim
      (sorted_sortByScoreDesc catalog)
  · rw [h1]
    exact entriesAllIn_catalogQuery catalog lim
